import Mathlib

/-!
# Verification of the spawn/lifetime/scoring engine of a grid arcade game

This file is a shallow embedding of the game-logic core of `main.go`
(the `Game` and `Item` types, `Game.updateGame`, `Game.initGame`,
`Item.Update`, `Item.Score`, `Item.Alive`, `Item.Resolved`, and the
difficulty-curve formulas inlined in `updateGame`), together with
theorems settling the specification's claims about it.

Modelling conventions:
* Go `int` is modelled as `ℤ`.
* Go `float64` arithmetic (`math.Log`, `math.Sqrt`, division) is
  idealised as real arithmetic over `ℝ`; a Go conversion `int(x)` of a
  float to an int (truncation toward zero) is modelled by `goInt`.
  Note `Real.log 0 = 0` in Mathlib while Go's `math.Log(0)` is `-Inf`;
  at the only call sites (score = 0 feeding the lifetime/cooldown
  formulas) both conventions are absorbed by the clamps
  `min 400 (max 100 _)` / `min 60 (max 5 _)` and yield the same
  clamped value (400 resp. 60), so the embedding agrees with the code
  at score 0.
* The process-wide RNG is modelled by an oracle record `Rand` holding
  one value per potential `rand.Intn` call of a tick: `rand.Intn n`
  with a compile-time constant `n` becomes a `Fin n` field, and the
  data-dependent `rand.Intn(int(coolTime))` becomes an arbitrary `ℕ`
  reduced modulo the (positive) bound, which parametrises exactly the
  interval `[0, bound)`.
* Input and hit-testing (cursor/touch position against an item's
  rendered bounds) are modelled by an oracle `Input`: a per-slot hover
  bit plus the global `justPressed` edge, matching the specification's
  treatment of bounds computation as an injected rendering-layer
  capability.
-/

namespace GameEngineDevSimulator

/-- Go conversion `int(x)` of a `float64`: truncation toward zero. -/
noncomputable def goInt (x : ℝ) : ℤ := if 0 ≤ x then ⌊x⌋ else ⌈x⌉

/-- The three phases of `Phase` in main.go
(`PhaseTitle`, `PhaseGame`, `PhaseGameOver`). -/
inductive Phase where
  | title
  | game
  | gameOver
deriving DecidableEq, Repr

/-- `maxRecoveryTime` constant. -/
def maxRecoveryTime : ℤ := 30

/-- `maxDamageTime` constant. -/
def maxDamageTime : ℤ := 5

/-- `initPlayerLife` constant. -/
def initPlayerLife : ℤ := 3

/-- `maxPlayerLife` constant. -/
def maxPlayerLife : ℤ := 6

/-- `screenWidth` constant. -/
def screenWidth : ℤ := 1920

/-- `screenHeight` constant. -/
def screenHeight : ℤ := 1080

/-- The `Item` struct of main.go. -/
structure Item where
  label : String
  centerX : ℤ
  centerY : ℤ
  recovery : Bool
  hovered : Bool
  resolved : Bool
  initLifetime : ℤ
  lifetime : ℤ
  baseScore : ℤ
deriving DecidableEq, Repr

/-- `NewItem` of main.go. -/
def NewItem (label : String) (centerX centerY : ℤ) (recovery : Bool)
    (lifetime : ℤ) (baseScore : ℤ) : Item :=
  { label := label
    centerX := centerX
    centerY := centerY
    recovery := recovery
    hovered := false
    resolved := false
    initLifetime := lifetime
    lifetime := lifetime
    baseScore := baseScore }

/-- `Item.Update` of main.go: decrement the lifetime if positive, then
recompute `hovered` from the injected hit-test result, then set
`resolved` if hovered and the activation edge fired this tick. -/
def Item.Update (it : Item) (hovered pressed : Bool) : Item :=
  let lt := if 0 < it.lifetime then it.lifetime - 1 else it.lifetime
  let res := if hovered && pressed then true else it.resolved
  { it with lifetime := lt, hovered := hovered, resolved := res }

/-- `Item.Resolved` of main.go. -/
def Item.Resolved (it : Item) : Bool := it.resolved

/-- `Item.Alive` of main.go: `lifetime > 0`. -/
def Item.Alive (it : Item) : Bool := decide (0 < it.lifetime)

/-- `Item.Score` of main.go:
`int(float64(baseScore) * math.Sqrt(float64(lifetime)/float64(initLifetime)))`. -/
noncomputable def Item.Score (it : Item) : ℤ :=
  goInt ((it.baseScore : ℝ) * Real.sqrt ((it.lifetime : ℝ) / (it.initLifetime : ℝ)))

/-- The `Game` struct of main.go; `items [3][4]*Item` becomes a total
function from slot coordinates to `Option Item`. -/
structure Game where
  phase : Phase
  score : ℤ
  items : Fin 3 → Fin 4 → Option Item
  coolTime : ℤ
  bugID : ℤ
  playerLife : ℤ
  recoveryTime : ℤ
  damageTime : ℤ

/-- `Game.initGame` of main.go (does not touch `phase`). -/
def Game.initGame (g : Game) : Game :=
  { g with
    score := 0
    items := fun _ _ => none
    coolTime := 0
    bugID := 0
    playerLife := initPlayerLife
    recoveryTime := 0
    damageTime := 0 }

/-- Writing one slot of the item grid. -/
def setSlot (f : Fin 3 → Fin 4 → Option Item) (j : Fin 3) (i : Fin 4)
    (v : Option Item) : Fin 3 → Fin 4 → Option Item :=
  fun j' i' => if j' = j ∧ i' = i then v else f j' i'

/-- RNG oracle for one tick: one field per potential `rand.Intn` call in
`updateGame`. -/
structure Rand where
  slotJ : Fin 3
  slotI : Fin 4
  roll3 : Fin 3
  roll5 : Fin 5
  roll10 : Fin 10
  labelRoll : Fin 2
  coolRoll : ℕ

/-- Input oracle for one tick: the hit-test result for each slot's item
and the `justPressed` activation edge. -/
structure Input where
  hovered : Fin 3 → Fin 4 → Bool
  pressed : Bool

/-- The recovery decision of `updateGame` (lines 169-179): only possible
when `score >= 100`; then a single uniform roll whose modulus depends on
the current life. -/
def decideRecovery (score life : ℤ) (r : Rand) : Bool :=
  if 100 ≤ score then
    if life < 2 then decide (r.roll3 = 0)
    else if life < 4 then decide (r.roll5 = 0)
    else if life < maxPlayerLife then decide (r.roll10 = 0)
    else false
  else false

/-- The raw clamped lifetime formula of `updateGame`:
`min(400, max(100, 100 * (5 - log(score)/log(10))))` over the reals. -/
noncomputable def lifetimeRaw (score : ℤ) : ℝ :=
  min 400 (max 100 (100 * (5 - Real.log (score : ℝ) / Real.log 10)))

/-- `int(lifetime)` as computed by `updateGame` for a normal spawn. -/
noncomputable def itemLifetime (score : ℤ) : ℤ := goInt (lifetimeRaw score)

/-- The base score of a normal spawn in `updateGame`:
`int(max(10, sqrt(score)))`. -/
noncomputable def goBaseScore (score : ℤ) : ℤ :=
  goInt (max 10 (Real.sqrt (score : ℝ)))

/-- The raw clamped cooldown formula of `updateGame`:
`min(60, max(5, 15 * (5 - log(score)/log(10))))` over the reals. -/
noncomputable def coolRaw (score : ℤ) : ℝ :=
  min 60 (max 5 (15 * (5 - Real.log (score : ℝ) / Real.log 10)))

/-- `int(coolTime)` as computed by `updateGame` after a successful spawn. -/
noncomputable def coolFloor (score : ℤ) : ℤ := goInt (coolRaw score)

/-- The cooldown decrement at the top of `updateGame`
(`if g.coolTime > 0 { g.coolTime-- }`). -/
def decCool (g : Game) : Game :=
  { g with coolTime := if 0 < g.coolTime then g.coolTime - 1 else g.coolTime }

/-- The recovery/damage timer decrements at the top of `updateGame`. -/
def decTimers (g : Game) : Game :=
  { g with
    recoveryTime := if 0 < g.recoveryTime then g.recoveryTime - 1 else g.recoveryTime
    damageTime := if 0 < g.damageTime then g.damageTime - 1 else g.damageTime }

/-- The body of the empty-slot branch of `updateGame`: place a new item
(recovery or normal) in the chosen slot and reset the cooldown. -/
noncomputable def spawnAt (g : Game) (r : Rand) : Game :=
  let j := r.slotJ
  let i := r.slotI
  let width := (screenWidth - 128) / 4
  let height := (screenHeight - 128 - 64) / 3
  let x := (i : ℤ) * width + width / 2 + 128 / 2
  let y := (j : ℤ) * height + height / 2 + 128 / 2 + 64
  let g1 :=
    if decideRecovery g.score g.playerLife r then
      let label := if r.labelRoll = 0 then "CONTRI-\nBUTION" else "SPONSORING"
      { g with items := setSlot g.items j i (some (NewItem label x y true 400 0)) }
    else
      let id := g.bugID + 1
      let label :=
        if r.labelRoll = 0 then "BUG\n#" ++ toString id
        else "FEATURE\nREQUEST\n#" ++ toString id
      { g with
        bugID := id
        items := setSlot g.items j i
          (some (NewItem label x y false (itemLifetime g.score) (goBaseScore g.score))) }
  { g1 with coolTime := coolFloor g.score + (r.coolRoll : ℤ) % coolFloor g.score }

/-- The spawn phase of `updateGame` (lines 154-231): decrement the
cooldown, and when it is zero try the one uniformly chosen slot. -/
noncomputable def spawnStep (g : Game) (r : Rand) : Game :=
  if (decCool g).coolTime = 0 then
    match (decCool g).items r.slotJ r.slotI with
    | some _ => decCool g
    | none => spawnAt (decCool g) r
  else decCool g

/-- Processing of one slot in the item loop of `updateGame`
(lines 233-262). -/
noncomputable def processSlot (inp : Input) (g : Game) (ji : Fin 3 × Fin 4) : Game :=
  match g.items ji.1 ji.2 with
  | none => g
  | some it0 =>
    let it := it0.Update (inp.hovered ji.1 ji.2) inp.pressed
    if it.Resolved then
      let g1 := { g with
        score := g.score + it.Score
        items := setSlot g.items ji.1 ji.2 none }
      if it.recovery then
        { g1 with playerLife := g1.playerLife + 1, recoveryTime := maxRecoveryTime }
      else g1
    else if it.Alive then
      { g with items := setSlot g.items ji.1 ji.2 (some it) }
    else
      let g1 := { g with
        items := setSlot g.items ji.1 ji.2 none
        damageTime := maxDamageTime
        playerLife := g.playerLife - 1 }
      if g1.playerLife ≤ 0 then { g1 with phase := Phase.gameOver } else g1

/-- The twelve slots in the row-major order of the Go `range` loops. -/
def allSlots : List (Fin 3 × Fin 4) :=
  [(0, 0), (0, 1), (0, 2), (0, 3),
   (1, 0), (1, 1), (1, 2), (1, 3),
   (2, 0), (2, 1), (2, 2), (2, 3)]

/-- The item loop of `updateGame`. -/
noncomputable def processItems (g : Game) (inp : Input) : Game :=
  allSlots.foldl (processSlot inp) g

/-- `Game.updateGame` of main.go for one tick, as a function of the
state, the RNG oracle and the input oracle. -/
noncomputable def Game.updateGame (g : Game) (r : Rand) (inp : Input) : Game :=
  processItems (spawnStep (decTimers g) r) inp

/-! ## Helper lemmas about `goInt` -/

lemma goInt_of_nonneg {x : ℝ} (h : 0 ≤ x) : goInt x = ⌊x⌋ := if_pos h

lemma goInt_intCast (n : ℤ) : goInt (n : ℝ) = n := by
  unfold goInt
  rcases le_or_lt 0 ((n : ℝ)) with h | h
  · rw [if_pos h, Int.floor_intCast]
  · rw [if_neg (not_le.mpr h), Int.ceil_intCast]

lemma goInt_mono {x y : ℝ} (hx : 0 ≤ x) (hxy : x ≤ y) : goInt x ≤ goInt y := by
  rw [goInt_of_nonneg hx, goInt_of_nonneg (hx.trans hxy)]
  exact Int.floor_mono hxy

lemma goInt_bounds {x : ℝ} {a b : ℤ} (h0 : 0 ≤ a) (ha : (a : ℝ) ≤ x)
    (hb : x ≤ (b : ℝ)) : a ≤ goInt x ∧ goInt x ≤ b := by
  have h0' : (0 : ℝ) ≤ (a : ℝ) := by exact_mod_cast h0
  constructor
  · have := goInt_mono h0' ha
    rwa [goInt_intCast] at this
  · have := goInt_mono (h0'.trans ha) hb
    rwa [goInt_intCast] at this

lemma floor_max_intCast (n : ℤ) (x : ℝ) : ⌊max (n : ℝ) x⌋ = max n ⌊x⌋ := by
  rcases le_total x (n : ℝ) with h | h
  · have hx : ⌊x⌋ ≤ n := by
      have := Int.floor_mono h
      rwa [Int.floor_intCast] at this
    rw [max_eq_left h, Int.floor_intCast, max_eq_left hx]
  · have hx : n ≤ ⌊x⌋ := by
      have := Int.floor_mono h
      rwa [Int.floor_intCast] at this
    rw [max_eq_right h, max_eq_right hx]

/-! ## C9: base reward -/

/-- Modelled from the spec's words in §4.1, for comparison with the
source's `goBaseScore`: `baseReward(score) = max(10, floor(sqrt(score)))`. -/
noncomputable def specBaseReward (score : ℤ) : ℤ := max 10 ⌊Real.sqrt (score : ℝ)⌋

/-- C9: for every score ≥ 0, the Go code's `int(max(10, sqrt(score)))`
coincides with the spec's `max(10, floor(sqrt(score)))`, and is ≥ 10. -/
theorem goBaseScore_eq_specBaseReward (s : ℤ) (_h : 0 ≤ s) :
    goBaseScore s = specBaseReward s ∧ 10 ≤ goBaseScore s := by
  have h10 : ((10 : ℤ) : ℝ) = (10 : ℝ) := by norm_num
  have key : goBaseScore s = max 10 ⌊Real.sqrt (s : ℝ)⌋ := by
    unfold goBaseScore
    rw [goInt_of_nonneg (le_trans (by norm_num) (le_max_left 10 (Real.sqrt (s : ℝ))))]
    rw [← h10, floor_max_intCast]
  refine ⟨key, ?_⟩
  rw [key]
  exact le_max_left _ _

theorem goBaseScore_eq_specBaseReward_witness :
    (0 : ℤ) ≤ 100 ∧ goBaseScore 100 = specBaseReward 100 ∧ 10 ≤ goBaseScore 100 := by
  refine ⟨by norm_num, ?_, ?_⟩
  · exact (goBaseScore_eq_specBaseReward 100 (by norm_num)).1
  · exact (goBaseScore_eq_specBaseReward 100 (by norm_num)).2

/-! ## C8: recovery eligibility -/

/-- At or above the life cap the recovery branch makes no roll and
never fires. -/
lemma decideRecovery_at_cap (score life : ℤ) (r : Rand) (h : maxPlayerLife ≤ life) :
    decideRecovery score life r = false := by
  unfold maxPlayerLife at h
  unfold decideRecovery maxPlayerLife
  split_ifs with h1 h2 h3 h4
  all_goals first | rfl | omega

/-- C8: a spawn decision is a recovery only when score ≥ 100 and
lives < 6; given eligibility the decision is the single uniform roll
whose modulus (3, 5, or 10) is picked by the life bracket; at
lives ≥ 6 no roll is made, and at score 0 (indeed any score < 100)
recovery is impossible regardless of the rolls. -/
theorem decideRecovery_spec (score life : ℤ) (r : Rand) :
    (decideRecovery score life r = true → 100 ≤ score ∧ life < maxPlayerLife) ∧
    (100 ≤ score → life < 2 →
      (decideRecovery score life r = true ↔ r.roll3 = 0)) ∧
    (100 ≤ score → 2 ≤ life → life < 4 →
      (decideRecovery score life r = true ↔ r.roll5 = 0)) ∧
    (100 ≤ score → 4 ≤ life → life < maxPlayerLife →
      (decideRecovery score life r = true ↔ r.roll10 = 0)) ∧
    (maxPlayerLife ≤ life → decideRecovery score life r = false) ∧
    (score = 0 → decideRecovery score life r = false) := by
  unfold decideRecovery maxPlayerLife
  refine ⟨?_, ?_, ?_, ?_, ?_, ?_⟩
  · intro h
    split_ifs at h with h1 h2 h3 h4
    all_goals exact ⟨h1, by omega⟩
  · intro h1 h2
    rw [if_pos h1, if_pos h2]
    simp
  · intro h1 h2 h3
    rw [if_pos h1, if_neg (by omega), if_pos h3]
    simp
  · intro h1 h2 h3
    rw [if_pos h1, if_neg (by omega), if_neg (by omega), if_pos h3]
    simp
  · intro h
    split_ifs with h1 h2 h3 h4
    all_goals first | rfl | omega
  · intro h
    rw [if_neg (by omega)]

theorem decideRecovery_spec_witness :
    ((100 : ℤ) ≤ 100 ∧ (1 : ℤ) < 2 ∧
      (decideRecovery 100 1 ⟨0, 0, 0, 0, 0, 0, 0⟩ = true ↔
        (⟨0, 0, 0, 0, 0, 0, 0⟩ : Rand).roll3 = 0)) ∧
    ((0 : ℤ) = 0 ∧ decideRecovery 0 1 ⟨0, 0, 0, 0, 0, 0, 0⟩ = false) := by
  refine ⟨⟨by norm_num, by norm_num, ?_⟩, ⟨rfl, ?_⟩⟩
  · exact (decideRecovery_spec 100 1 ⟨0, 0, 0, 0, 0, 0, 0⟩).2.1 (by norm_num) (by norm_num)
  · exact (decideRecovery_spec 0 1 ⟨0, 0, 0, 0, 0, 0, 0⟩).2.2.2.2.2 rfl

/-! ## Reduction lemmas for the spawn phase -/

lemma decCool_items (g : Game) : (decCool g).items = g.items := rfl

lemma decCool_score (g : Game) : (decCool g).score = g.score := rfl

lemma spawnStep_of_coolTime_ne (g : Game) (r : Rand)
    (hc : (decCool g).coolTime ≠ 0) : spawnStep g r = decCool g := by
  unfold spawnStep
  rw [if_neg hc]

lemma spawnStep_of_occupied (g : Game) (r : Rand) (it : Item)
    (hc : (decCool g).coolTime = 0) (hs : g.items r.slotJ r.slotI = some it) :
    spawnStep g r = decCool g := by
  have hs' : (decCool g).items r.slotJ r.slotI = some it := hs
  unfold spawnStep
  rw [if_pos hc, hs']

lemma spawnStep_of_empty (g : Game) (r : Rand)
    (hc : (decCool g).coolTime = 0) (hs : g.items r.slotJ r.slotI = none) :
    spawnStep g r = spawnAt (decCool g) r := by
  have hs' : (decCool g).items r.slotJ r.slotI = none := hs
  unfold spawnStep
  rw [if_pos hc, hs']

lemma spawnAt_coolTime (g : Game) (r : Rand) :
    (spawnAt g r).coolTime = coolFloor g.score + (r.coolRoll : ℤ) % coolFloor g.score := by
  unfold spawnAt
  split <;> rfl

lemma spawnAt_items (g : Game) (r : Rand) :
    (spawnAt g r).items =
      setSlot g.items r.slotJ r.slotI
        (some (if decideRecovery g.score g.playerLife r then
          NewItem (if r.labelRoll = 0 then "CONTRI-\nBUTION" else "SPONSORING")
            ((r.slotI : ℤ) * ((screenWidth - 128) / 4) + ((screenWidth - 128) / 4) / 2 + 128 / 2)
            ((r.slotJ : ℤ) * ((screenHeight - 128 - 64) / 3) + ((screenHeight - 128 - 64) / 3) / 2 + 128 / 2 + 64)
            true 400 0
        else
          NewItem (if r.labelRoll = 0 then "BUG\n#" ++ toString (g.bugID + 1)
              else "FEATURE\nREQUEST\n#" ++ toString (g.bugID + 1))
            ((r.slotI : ℤ) * ((screenWidth - 128) / 4) + ((screenWidth - 128) / 4) / 2 + 128 / 2)
            ((r.slotJ : ℤ) * ((screenHeight - 128 - 64) / 3) + ((screenHeight - 128 - 64) / 3) / 2 + 128 / 2 + 64)
            false (itemLifetime g.score) (goBaseScore g.score))) := by
  unfold spawnAt
  split <;> rfl

/-! ## C6: item lifetime -/

lemma lifetimeRaw_lower (s : ℤ) : (100 : ℝ) ≤ lifetimeRaw s :=
  le_min (by norm_num) (le_max_left _ _)

lemma lifetimeRaw_upper (s : ℤ) : lifetimeRaw s ≤ 400 := min_le_left _ _

lemma itemLifetime_bounds (s : ℤ) : 100 ≤ itemLifetime s ∧ itemLifetime s ≤ 400 := by
  unfold itemLifetime
  refine goInt_bounds (by norm_num) ?_ ?_
  · exact_mod_cast lifetimeRaw_lower s
  · exact_mod_cast lifetimeRaw_upper s

lemma log_div_log_ten_mono {s t : ℤ} (hs : 1 ≤ s) (hst : s ≤ t) :
    Real.log (s : ℝ) / Real.log 10 ≤ Real.log (t : ℝ) / Real.log 10 := by
  have h10 : (0 : ℝ) < Real.log 10 := Real.log_pos (by norm_num)
  have hs' : (0 : ℝ) < (s : ℝ) := by exact_mod_cast lt_of_lt_of_le Int.zero_lt_one hs
  have hst' : (s : ℝ) ≤ (t : ℝ) := by exact_mod_cast hst
  exact (div_le_div_iff_of_pos_right h10).mpr (Real.log_le_log hs' hst')

lemma lifetimeRaw_antitone {s t : ℤ} (hs : 1 ≤ s) (hst : s ≤ t) :
    lifetimeRaw t ≤ lifetimeRaw s := by
  have h := log_div_log_ten_mono hs hst
  unfold lifetimeRaw
  exact min_le_min le_rfl (max_le_max le_rfl (by linarith))

lemma lifetimeRaw_zero : lifetimeRaw 0 = 400 := by
  unfold lifetimeRaw
  rw [Int.cast_zero, Real.log_zero, zero_div]
  have h5 : (100 : ℝ) * (5 - 0) = 500 := by norm_num
  rw [h5, max_eq_right (by norm_num : (100 : ℝ) ≤ 500),
    min_eq_left (by norm_num : (400 : ℝ) ≤ 500)]

lemma itemLifetime_zero : itemLifetime 0 = 400 := by
  unfold itemLifetime
  rw [lifetimeRaw_zero, show (400 : ℝ) = ((400 : ℤ) : ℝ) by norm_num, goInt_intCast]

/-- Modelled from the spec's words in §4.1, for comparison with the
source formula: `100 * (5 - log10(max(score,1)))` clamped to
`[100, 400]` and truncated. -/
noncomputable def specItemLifetime (score : ℤ) : ℤ :=
  goInt (min 400 (max 100 (100 * (5 - Real.logb 10 ((max score 1 : ℤ) : ℝ)))))

/-- C6: for every score ≥ 0 the code's item lifetime equals the spec's
`100 * (5 - log10(max(score,1)))` clamped to `[100, 400]` and
truncated; it always lies in `[100, 400]` and is non-increasing in the
score. -/
theorem itemLifetime_spec (s : ℤ) (h : 0 ≤ s) :
    itemLifetime s = specItemLifetime s ∧
    (100 ≤ itemLifetime s ∧ itemLifetime s ≤ 400) ∧
    (∀ t, s ≤ t → itemLifetime t ≤ itemLifetime s) := by
  refine ⟨?_, itemLifetime_bounds s, ?_⟩
  · rcases eq_or_lt_of_le h with h0 | h1
    · rw [← h0, itemLifetime_zero]
      unfold specItemLifetime
      rw [show max (0 : ℤ) 1 = 1 from rfl, Int.cast_one, Real.logb_one]
      have h5 : (100 : ℝ) * (5 - 0) = 500 := by norm_num
      rw [h5, max_eq_right (by norm_num : (100 : ℝ) ≤ 500),
        min_eq_left (by norm_num : (400 : ℝ) ≤ 500),
        show (400 : ℝ) = ((400 : ℤ) : ℝ) by norm_num, goInt_intCast]
    · have h1' : (1 : ℤ) ≤ s := h1
      unfold itemLifetime specItemLifetime lifetimeRaw
      rw [max_eq_left h1']
      simp [Real.logb]
  · intro t hst
    rcases eq_or_lt_of_le h with h0 | h1
    · rw [← h0, itemLifetime_zero]
      exact (itemLifetime_bounds t).2
    · have h1' : (1 : ℤ) ≤ s := h1
      unfold itemLifetime
      exact goInt_mono (le_trans (by norm_num) (lifetimeRaw_lower t))
        (lifetimeRaw_antitone h1' hst)

theorem itemLifetime_spec_witness :
    (0 : ℤ) ≤ 0 ∧ itemLifetime 0 = specItemLifetime 0 ∧
      (100 ≤ itemLifetime 0 ∧ itemLifetime 0 ≤ 400) ∧
      ((0 : ℤ) ≤ 1 ∧ itemLifetime 1 ≤ itemLifetime 0) := by
  refine ⟨le_refl 0, (itemLifetime_spec 0 le_rfl).1, (itemLifetime_spec 0 le_rfl).2.1,
    by norm_num, (itemLifetime_spec 0 le_rfl).2.2 1 (by norm_num)⟩

/-! ## C7: spawn cooldown -/

lemma coolRaw_lower (s : ℤ) : (5 : ℝ) ≤ coolRaw s :=
  le_min (by norm_num) (le_max_left _ _)

lemma coolRaw_upper (s : ℤ) : coolRaw s ≤ 60 := min_le_left _ _

lemma coolFloor_bounds (s : ℤ) : 5 ≤ coolFloor s ∧ coolFloor s ≤ 60 := by
  unfold coolFloor
  refine goInt_bounds (by norm_num) ?_ ?_
  · exact_mod_cast coolRaw_lower s
  · exact_mod_cast coolRaw_upper s

lemma coolFloor_pos (s : ℤ) : 0 < coolFloor s :=
  lt_of_lt_of_le (by norm_num) (coolFloor_bounds s).1

lemma coolRaw_antitone {s t : ℤ} (hs : 1 ≤ s) (hst : s ≤ t) :
    coolRaw t ≤ coolRaw s := by
  have h := log_div_log_ten_mono hs hst
  unfold coolRaw
  exact min_le_min le_rfl (max_le_max le_rfl (by linarith))

lemma coolRaw_zero : coolRaw 0 = 60 := by
  unfold coolRaw
  rw [Int.cast_zero, Real.log_zero, zero_div]
  have h5 : (15 : ℝ) * (5 - 0) = 75 := by norm_num
  rw [h5, max_eq_right (by norm_num : (5 : ℝ) ≤ 75),
    min_eq_left (by norm_num : (60 : ℝ) ≤ 75)]

/-- C7: the raw cooldown formula is clamped to `[5, 60]` and
non-increasing in the score; the cooldown actually installed after a
successful spawn is `floor(raw) + roll mod floor(raw)` with the random
addend in `[0, floor(raw))`, so it always lies in
`[floor(raw), 2 * floor(raw) - 1]`. -/
theorem spawnCooldown_spec (s : ℤ) (h : 0 ≤ s) :
    ((5 : ℝ) ≤ coolRaw s ∧ coolRaw s ≤ 60) ∧
    (∀ t, s ≤ t → coolRaw t ≤ coolRaw s) ∧
    (∀ roll : ℕ, 0 ≤ (roll : ℤ) % coolFloor s ∧ (roll : ℤ) % coolFloor s < coolFloor s ∧
      coolFloor s ≤ coolFloor s + (roll : ℤ) % coolFloor s ∧
      coolFloor s + (roll : ℤ) % coolFloor s ≤ 2 * coolFloor s - 1) ∧
    (∀ (g : Game) (r : Rand), g.score = s → (decCool g).coolTime = 0 →
      g.items r.slotJ r.slotI = none →
      (spawnStep g r).coolTime = coolFloor s + (r.coolRoll : ℤ) % coolFloor s) := by
  refine ⟨⟨coolRaw_lower s, coolRaw_upper s⟩, ?_, ?_, ?_⟩
  · intro t hst
    rcases eq_or_lt_of_le h with h0 | h1
    · rw [← h0, coolRaw_zero]
      exact coolRaw_upper t
    · exact coolRaw_antitone h1 hst
  · intro roll
    have hpos := coolFloor_pos s
    have h1 : 0 ≤ (roll : ℤ) % coolFloor s := Int.emod_nonneg _ (ne_of_gt hpos)
    have h2 : (roll : ℤ) % coolFloor s < coolFloor s := Int.emod_lt_of_pos _ hpos
    exact ⟨h1, h2, by omega, by omega⟩
  · intro g r hsc hc hs
    rw [spawnStep_of_empty g r hc hs, spawnAt_coolTime, decCool_score, hsc]

theorem spawnCooldown_spec_witness :
    (0 : ℤ) ≤ 0 ∧ (5 : ℝ) ≤ coolRaw 0 ∧ coolRaw 0 ≤ 60 ∧
      coolFloor 0 ≤ coolFloor 0 + (7 : ℤ) % coolFloor 0 ∧
      coolFloor 0 + (7 : ℤ) % coolFloor 0 ≤ 2 * coolFloor 0 - 1 := by
  refine ⟨le_refl 0, (spawnCooldown_spec 0 le_rfl).1.1, (spawnCooldown_spec 0 le_rfl).1.2,
    ?_, ?_⟩
  · have := ((spawnCooldown_spec 0 le_rfl).2.2.1 7).2.2.1
    exact_mod_cast this
  · have := ((spawnCooldown_spec 0 le_rfl).2.2.1 7).2.2.2
    exact_mod_cast this

/-! ## C3: spawn discipline -/

lemma setSlot_same (f : Fin 3 → Fin 4 → Option Item) (j : Fin 3) (i : Fin 4)
    (v : Option Item) : setSlot f j i v j i = v := by
  unfold setSlot
  rw [if_pos ⟨rfl, rfl⟩]

lemma setSlot_ne (f : Fin 3 → Fin 4 → Option Item) (j : Fin 3) (i : Fin 4)
    (v : Option Item) (a : Fin 3) (b : Fin 4) (h : ¬(a = j ∧ b = i)) :
    setSlot f j i v a b = f a b := by
  unfold setSlot
  rw [if_neg h]

/-- The item loop never fills an empty slot: slots only go from
occupied to empty or stay as they are. -/
lemma processSlot_items_none (inp : Input) (g : Game) (ji ab : Fin 3 × Fin 4)
    (h : g.items ab.1 ab.2 = none) :
    (processSlot inp g ji).items ab.1 ab.2 = none := by
  unfold processSlot
  cases hslot : g.items ji.1 ji.2 with
  | none => exact h
  | some it0 =>
    have hne : ¬(ab.1 = ji.1 ∧ ab.2 = ji.2) := by
      rintro ⟨e1, e2⟩
      rw [e1, e2, hslot] at h
      exact Option.noConfusion h
    dsimp only
    split_ifs <;> simp only [setSlot_ne _ _ _ _ _ _ hne, h]

lemma processItems_items_none (g : Game) (inp : Input) (ab : Fin 3 × Fin 4)
    (h : g.items ab.1 ab.2 = none) :
    (processItems g inp).items ab.1 ab.2 = none := by
  suffices hsuff : ∀ (l : List (Fin 3 × Fin 4)) (g : Game), g.items ab.1 ab.2 = none →
      (l.foldl (processSlot inp) g).items ab.1 ab.2 = none from hsuff allSlots g h
  intro l
  induction l with
  | nil => intro g h; exact h
  | cons x xs ih =>
    intro g h
    exact ih _ (processSlot_items_none inp g x ab h)

/-- C3: in a tick, a spawn attempt happens only when the decremented
cooldown is 0; if the chosen slot is occupied nothing changes (the
cooldown stays 0); if it is empty, exactly that one slot is filled and
the cooldown is reset to a positive value; the item loop itself never
fills an empty slot, so at most the one chosen slot is spawned into per
tick. -/
theorem spawn_discipline :
    (∀ (g : Game) (r : Rand), (decCool g).coolTime ≠ 0 → spawnStep g r = decCool g) ∧
    (∀ (g : Game) (r : Rand) (it : Item), (decCool g).coolTime = 0 →
      g.items r.slotJ r.slotI = some it → spawnStep g r = decCool g) ∧
    (∀ (g : Game) (r : Rand), (decCool g).coolTime = 0 →
      g.items r.slotJ r.slotI = none →
      (∃ newIt : Item,
        (spawnStep g r).items = setSlot g.items r.slotJ r.slotI (some newIt)) ∧
      0 < (spawnStep g r).coolTime) ∧
    (∀ (g : Game) (inp : Input) (ab : Fin 3 × Fin 4),
      g.items ab.1 ab.2 = none → (processItems g inp).items ab.1 ab.2 = none) := by
  refine ⟨spawnStep_of_coolTime_ne, fun g r it hc hs => spawnStep_of_occupied g r it hc hs,
    ?_, processItems_items_none⟩
  intro g r hc hs
  rw [spawnStep_of_empty g r hc hs]
  constructor
  · exact ⟨_, spawnAt_items (decCool g) r⟩
  · rw [spawnAt_coolTime]
    have hpos := coolFloor_pos (decCool g).score
    have hnn : 0 ≤ (r.coolRoll : ℤ) % coolFloor (decCool g).score :=
      Int.emod_nonneg _ (ne_of_gt hpos)
    omega

/-- A concrete all-empty grid used by witnesses. -/
def emptyGrid : Fin 3 → Fin 4 → Option Item := fun _ _ => none

/-- A concrete playing-phase state with cooldown 2 and an empty board. -/
def gCool2 : Game :=
  { phase := Phase.game, score := 0, items := emptyGrid, coolTime := 2,
    bugID := 0, playerLife := 3, recoveryTime := 0, damageTime := 0 }

/-- A concrete playing-phase state with cooldown 0 and an empty board. -/
def gCool0 : Game :=
  { phase := Phase.game, score := 0, items := emptyGrid, coolTime := 0,
    bugID := 0, playerLife := 3, recoveryTime := 0, damageTime := 0 }

/-- A fixed RNG oracle used by witnesses. -/
def rand0 : Rand := ⟨0, 0, 0, 0, 0, 0, 0⟩

/-- A fixed input oracle with nothing hovered and no press. -/
def inpNone : Input := ⟨fun _ _ => false, false⟩

theorem spawn_discipline_witness :
    ((decCool gCool2).coolTime ≠ 0 ∧ spawnStep gCool2 rand0 = decCool gCool2) ∧
    ((decCool gCool0).coolTime = 0 ∧ gCool0.items rand0.slotJ rand0.slotI = none ∧
      (∃ newIt : Item,
        (spawnStep gCool0 rand0).items =
          setSlot gCool0.items rand0.slotJ rand0.slotI (some newIt)) ∧
      0 < (spawnStep gCool0 rand0).coolTime) ∧
    (gCool2.items 1 2 = none ∧ (processItems gCool2 inpNone).items 1 2 = none) := by
  have h1 : (decCool gCool2).coolTime ≠ 0 := by decide
  have h2 : (decCool gCool0).coolTime = 0 := by decide
  have h3 : gCool0.items rand0.slotJ rand0.slotI = none := rfl
  have h4 : gCool2.items 1 2 = none := rfl
  refine ⟨⟨h1, spawn_discipline.1 gCool2 rand0 h1⟩,
    ⟨h2, h3, (spawn_discipline.2.2.1 gCool0 rand0 h2 h3).1,
      (spawn_discipline.2.2.1 gCool0 rand0 h2 h3).2⟩,
    ⟨h4, spawn_discipline.2.2.2 gCool2 inpNone ⟨1, 2⟩ h4⟩⟩

/-! ## C5: expiry, damage and the GameOver transition -/

lemma decTimers_phase (g : Game) : (decTimers g).phase = g.phase := rfl

lemma decCool_phase (g : Game) : (decCool g).phase = g.phase := rfl

lemma spawnAt_phase (g : Game) (r : Rand) : (spawnAt g r).phase = g.phase := by
  unfold spawnAt
  split <;> rfl

lemma spawnStep_phase (g : Game) (r : Rand) : (spawnStep g r).phase = g.phase := by
  unfold spawnStep
  split
  · split
    · rfl
    · exact spawnAt_phase _ _
  · rfl

/-- Whether the item in slot `ji` expires this tick (present, not
resolved after its update, lifetime exhausted). -/
def expiredAt (inp : Input) (g : Game) (ji : Fin 3 × Fin 4) : Bool :=
  match g.items ji.1 ji.2 with
  | none => false
  | some it0 =>
    let it := it0.Update (inp.hovered ji.1 ji.2) inp.pressed
    !it.Resolved && !it.Alive

/-- The item-loop step instrumented with a flag recording whether some
expiry check has seen the life counter reach 0 or below. -/
noncomputable def stepD (inp : Input) (p : Game × Bool) (ji : Fin 3 × Fin 4) :
    Game × Bool :=
  (processSlot inp p.1 ji,
   p.2 || (expiredAt inp p.1 ji && decide (p.1.playerLife - 1 ≤ 0)))

/-- `lives ≤ 0` was reached at some expiry check during the tick. -/
noncomputable def tickDead (g : Game) (r : Rand) (inp : Input) : Bool :=
  (allSlots.foldl (stepD inp) (spawnStep (decTimers g) r, false)).2

lemma foldD_fst (inp : Input) : ∀ (l : List (Fin 3 × Fin 4)) (g : Game) (b : Bool),
    (l.foldl (stepD inp) (g, b)).1 = l.foldl (processSlot inp) g := by
  intro l
  induction l with
  | nil => intro g b; rfl
  | cons x xs ih => intro g b; exact ih _ _

lemma processSlot_phase_flag (inp : Input) (g : Game) (ji : Fin 3 × Fin 4) (b : Bool)
    (h : g.phase = Phase.gameOver ↔ b = true) :
    ((processSlot inp g ji).phase = Phase.gameOver ↔
      (b || (expiredAt inp g ji && decide (g.playerLife - 1 ≤ 0))) = true) := by
  unfold processSlot expiredAt
  cases hslot : g.items ji.1 ji.2 with
  | none => simpa using h
  | some it0 =>
    dsimp only
    split_ifs with h1 h2 h3 h4
    · simpa [h1] using h
    · simpa [h1] using h
    · simpa [h1, h3] using h
    · simp [h1, h3, h4]
    · have : ¬(g.playerLife - 1 ≤ 0) := h4
      simp only [h1, h3]
      simpa [this] using h

lemma foldD_phase (inp : Input) : ∀ (l : List (Fin 3 × Fin 4)) (g : Game) (b : Bool),
    (g.phase = Phase.gameOver ↔ b = true) →
    ((l.foldl (stepD inp) (g, b)).1.phase = Phase.gameOver ↔
      (l.foldl (stepD inp) (g, b)).2 = true) := by
  intro l
  induction l with
  | nil => intro g b h; exact h
  | cons x xs ih =>
    intro g b h
    exact ih _ _ (processSlot_phase_flag inp g x b h)

/-- C5: each expiry of an unresolved item sets `damageTime` to 5 and
decrements the life counter, and (starting from the playing phase) the
slot processing moves the phase to game-over exactly when the
decremented life is ≤ 0; over a whole playing-phase tick, the phase
ends at game-over iff some expiry check during the tick saw the life
counter reach 0 or below. -/
theorem expiry_gameOver_spec :
    (∀ (inp : Input) (g : Game) (ji : Fin 3 × Fin 4) (it0 : Item),
      g.phase = Phase.game →
      g.items ji.1 ji.2 = some it0 →
      (it0.Update (inp.hovered ji.1 ji.2) inp.pressed).Resolved = false →
      (it0.Update (inp.hovered ji.1 ji.2) inp.pressed).Alive = false →
      (processSlot inp g ji).damageTime = maxDamageTime ∧
      (processSlot inp g ji).playerLife = g.playerLife - 1 ∧
      ((processSlot inp g ji).phase = Phase.gameOver ↔ g.playerLife - 1 ≤ 0)) ∧
    (∀ (g : Game) (r : Rand) (inp : Input), g.phase = Phase.game →
      ((g.updateGame r inp).phase = Phase.gameOver ↔ tickDead g r inp = true)) := by
  constructor
  · intro inp g ji it0 hphase hslot hres halive
    unfold processSlot
    rw [hslot]
    dsimp only
    rw [hres]
    simp only [Bool.false_eq_true, if_false]
    rw [halive]
    simp only [Bool.false_eq_true, if_false]
    split_ifs with hlife
    · refine ⟨rfl, rfl, ?_⟩
      simp [hlife]
    · refine ⟨rfl, rfl, ?_⟩
      rw [hphase]
      simp [hlife]
  · intro g r inp hphase
    have hinit : (spawnStep (decTimers g) r).phase = Phase.gameOver ↔ (false = true) := by
      rw [spawnStep_phase, decTimers_phase, hphase]
      simp
    have h := foldD_phase inp allSlots (spawnStep (decTimers g) r) false hinit
    rw [foldD_fst] at h
    exact h

/-- An expiring bug item: one tick of lifetime left. -/
def itExp : Item :=
  { NewItem ("BUG\n#" ++ toString (1 : ℤ)) 288 276 false 400 10 with lifetime := 1 }

/-- A playing-phase state holding only `itExp`, with one life left. -/
def gExp : Game :=
  { phase := Phase.game, score := 0,
    items := setSlot emptyGrid 0 0 (some itExp), coolTime := 2,
    bugID := 1, playerLife := 1, recoveryTime := 0, damageTime := 0 }

theorem expiry_gameOver_spec_witness :
    (gExp.phase = Phase.game ∧
      gExp.items 0 0 = some itExp ∧
      (itExp.Update (inpNone.hovered 0 0) inpNone.pressed).Resolved = false ∧
      (itExp.Update (inpNone.hovered 0 0) inpNone.pressed).Alive = false ∧
      (processSlot inpNone gExp (0, 0)).damageTime = maxDamageTime ∧
      (processSlot inpNone gExp (0, 0)).playerLife = gExp.playerLife - 1 ∧
      ((processSlot inpNone gExp (0, 0)).phase = Phase.gameOver ↔
        gExp.playerLife - 1 ≤ 0)) ∧
    ((gExp.updateGame rand0 inpNone).phase = Phase.gameOver ↔
      tickDead gExp rand0 inpNone = true) := by
  have h1 : gExp.phase = Phase.game := rfl
  have h2 : gExp.items 0 0 = some itExp := rfl
  have h3 : (itExp.Update (inpNone.hovered 0 0) inpNone.pressed).Resolved = false := rfl
  have h4 : (itExp.Update (inpNone.hovered 0 0) inpNone.pressed).Alive = false := rfl
  have hmain := expiry_gameOver_spec.1 inpNone gExp (0, 0) itExp h1 h2 h3 h4
  exact ⟨⟨h1, h2, h3, h4, hmain.1, hmain.2.1, hmain.2.2⟩,
    expiry_gameOver_spec.2 gExp rand0 inpNone h1⟩

/-! ## C4: score decay -/

lemma goInt_zero : goInt 0 = 0 := by
  rw [show (0 : ℝ) = ((0 : ℤ) : ℝ) by norm_num, goInt_intCast]

lemma Score_at_full (it : Item) (hpos : 0 < it.initLifetime)
    (heq : it.lifetime = it.initLifetime) : it.Score = it.baseScore := by
  unfold Item.Score
  rw [heq]
  have hne : ((it.initLifetime : ℤ) : ℝ) ≠ 0 := by
    exact_mod_cast ne_of_gt hpos
  rw [div_self hne, Real.sqrt_one, mul_one, goInt_intCast]

lemma Score_at_zero (it : Item) (h0 : it.lifetime = 0) : it.Score = 0 := by
  unfold Item.Score
  rw [h0, Int.cast_zero, zero_div, Real.sqrt_zero, mul_zero, goInt_zero]

lemma processSlot_resolved_score (inp : Input) (g : Game) (ji : Fin 3 × Fin 4)
    (it0 : Item) (hslot : g.items ji.1 ji.2 = some it0)
    (hres : (it0.Update (inp.hovered ji.1 ji.2) inp.pressed).Resolved = true) :
    (processSlot inp g ji).score =
      g.score + (it0.Update (inp.hovered ji.1 ji.2) inp.pressed).Score := by
  unfold processSlot
  rw [hslot]
  dsimp only
  rw [hres]
  simp only [if_true]
  split_ifs <;> rfl

/-- Counterexample to the claim that a last-tick click scores the
minimum nonzero value: clicking `itExp` (one tick of lifetime left) on
its final tick resolves it, but the resolve check runs after the
decrement, so the score is computed at remaining lifetime 0 and is
exactly 0. -/
theorem lastTick_click_scores_zero :
    itExp.lifetime = 1 ∧ (itExp.Update true true).Resolved = true ∧
    (itExp.Update true true).Score = 0 := by
  refine ⟨rfl, rfl, Score_at_zero _ rfl⟩

/-- C4 (amended): `scoreValue` is `baseReward` at full remaining
lifetime and 0 at remaining lifetime 0; the tick decrements the
lifetime before the resolve check, and the score credited for a
resolved item is computed from the post-decrement item — so a click on
the item's final tick (lifetime reaching 0 that tick) resolves it but
scores exactly 0. -/
theorem score_decay_spec :
    (∀ it : Item, 0 < it.initLifetime → it.lifetime = it.initLifetime →
      it.Score = it.baseScore) ∧
    (∀ it : Item, it.lifetime = 0 → it.Score = 0) ∧
    (∀ (it : Item) (hov pressed : Bool), 0 < it.lifetime →
      (it.Update hov pressed).lifetime = it.lifetime - 1 ∧
      ((it.Update hov pressed).Resolved = true ↔
        (hov && pressed) = true ∨ it.resolved = true)) ∧
    (∀ (inp : Input) (g : Game) (ji : Fin 3 × Fin 4) (it0 : Item),
      g.items ji.1 ji.2 = some it0 →
      (it0.Update (inp.hovered ji.1 ji.2) inp.pressed).Resolved = true →
      (processSlot inp g ji).score =
        g.score + (it0.Update (inp.hovered ji.1 ji.2) inp.pressed).Score) ∧
    (∀ it : Item, it.lifetime = 1 →
      (it.Update true true).Resolved = true ∧ (it.Update true true).Score = 0) := by
  refine ⟨Score_at_full, Score_at_zero, ?_, processSlot_resolved_score, ?_⟩
  · intro it hov pressed hpos
    constructor
    · unfold Item.Update
      dsimp only
      rw [if_pos hpos]
    · unfold Item.Update Item.Resolved
      dsimp only
      cases hcase : hov && pressed <;> simp [hcase]
  · intro it h1
    have h0 : (it.Update true true).lifetime = 0 := by
      unfold Item.Update
      dsimp only
      rw [h1]
      norm_num
    refine ⟨?_, Score_at_zero _ h0⟩
    unfold Item.Update Item.Resolved
    simp

theorem score_decay_spec_witness :
    (0 < itExp.initLifetime ∧ itExp.lifetime = 1 ∧
      ({ itExp with lifetime := itExp.initLifetime } : Item).Score =
        itExp.baseScore) ∧
    ((itExp.Update true true).Resolved = true ∧ (itExp.Update true true).Score = 0) := by
  refine ⟨⟨by norm_num [itExp, NewItem], rfl, ?_⟩, score_decay_spec.2.2.2.2 itExp rfl⟩
  exact score_decay_spec.1 _ (by norm_num [itExp, NewItem]) rfl

/-! ## Evaluation lemmas for the item loop -/

lemma processSlot_none (inp : Input) (g : Game) (ji : Fin 3 × Fin 4)
    (h : g.items ji.1 ji.2 = none) : processSlot inp g ji = g := by
  unfold processSlot
  rw [h]

lemma Update_recovery (it : Item) (hov pressed : Bool) :
    (it.Update hov pressed).recovery = it.recovery := rfl

lemma processSlot_resolved_rec (inp : Input) (g : Game) (ji : Fin 3 × Fin 4)
    (it0 : Item) (hslot : g.items ji.1 ji.2 = some it0)
    (hres : (it0.Update (inp.hovered ji.1 ji.2) inp.pressed).Resolved = true)
    (hrec : it0.recovery = true) :
    processSlot inp g ji =
      { g with
        score := g.score + (it0.Update (inp.hovered ji.1 ji.2) inp.pressed).Score,
        items := setSlot g.items ji.1 ji.2 none,
        playerLife := g.playerLife + 1,
        recoveryTime := maxRecoveryTime } := by
  unfold processSlot
  rw [hslot]
  dsimp only
  rw [hres, Update_recovery, hrec]
  simp only [if_true]

lemma processSlot_resolved_nonrec (inp : Input) (g : Game) (ji : Fin 3 × Fin 4)
    (it0 : Item) (hslot : g.items ji.1 ji.2 = some it0)
    (hres : (it0.Update (inp.hovered ji.1 ji.2) inp.pressed).Resolved = true)
    (hrec : it0.recovery = false) :
    processSlot inp g ji =
      { g with
        score := g.score + (it0.Update (inp.hovered ji.1 ji.2) inp.pressed).Score,
        items := setSlot g.items ji.1 ji.2 none } := by
  unfold processSlot
  rw [hslot]
  dsimp only
  rw [hres, Update_recovery, hrec]
  simp only [if_true, Bool.false_eq_true, if_false]

lemma processSlot_expired_dead (inp : Input) (g : Game) (ji : Fin 3 × Fin 4)
    (it0 : Item) (hslot : g.items ji.1 ji.2 = some it0)
    (hres : (it0.Update (inp.hovered ji.1 ji.2) inp.pressed).Resolved = false)
    (halive : (it0.Update (inp.hovered ji.1 ji.2) inp.pressed).Alive = false)
    (hlife : g.playerLife - 1 ≤ 0) :
    processSlot inp g ji =
      { g with
        items := setSlot g.items ji.1 ji.2 none,
        damageTime := maxDamageTime,
        playerLife := g.playerLife - 1,
        phase := Phase.gameOver } := by
  unfold processSlot
  rw [hslot]
  dsimp only
  rw [hres, halive]
  simp only [Bool.false_eq_true, if_false]
  rw [if_pos hlife]

lemma foldl_processSlot_none (inp : Input) :
    ∀ (l : List (Fin 3 × Fin 4)) (g : Game),
      (∀ ji ∈ l, g.items ji.1 ji.2 = none) →
      l.foldl (processSlot inp) g = g := by
  intro l
  induction l with
  | nil => intro g _; rfl
  | cons x xs ih =>
    intro g h
    rw [List.foldl_cons, processSlot_none inp g x (h x (by simp))]
    exact ih g fun ji hji => h ji (by simp [hji])

/-! ## C1: recovery resolution and the life cap -/

/-- A recovery item as spawned by the recovery branch. -/
def itRec : Item := NewItem "SPONSORING" 288 276 true 400 0

/-- A playing-phase state at the life cap with a pending recovery item. -/
def gCap : Game :=
  { phase := Phase.game, score := 1000,
    items := setSlot emptyGrid 0 0 (some itRec), coolTime := 2,
    bugID := 0, playerLife := 6, recoveryTime := 0, damageTime := 0 }

/-- Input clicking the item in slot (0,0). -/
def inpClick00 : Input := ⟨fun j i => decide (j = 0 ∧ i = 0), true⟩

/-- Counterexample to the claim that resolving a recovery item sets
lives to `min(lives+1, 6)`: at lives = 6 (`maxPlayerLife`) resolving a
pending recovery item yields 7, so lives does exceed 6. -/
theorem recovery_uncapped_at_max :
    gCap.playerLife = maxPlayerLife ∧
    (gCap.updateGame rand0 inpClick00).playerLife = maxPlayerLife + 1 := by
  refine ⟨rfl, ?_⟩
  unfold Game.updateGame
  have hc : (decCool (decTimers gCap)).coolTime ≠ 0 := by decide
  rw [spawnStep_of_coolTime_ne _ _ hc]
  unfold processItems allSlots
  rw [List.foldl_cons]
  have hslot : (decCool (decTimers gCap)).items (0, 0).1 (0, 0).2 = some itRec := rfl
  have hres : (itRec.Update (inpClick00.hovered (0, 0).1 (0, 0).2)
      inpClick00.pressed).Resolved = true := rfl
  rw [processSlot_resolved_rec inpClick00 _ (0, 0) itRec hslot hres rfl]
  rw [foldl_processSlot_none inpClick00]
  · decide
  · decide

/-- C1 (amended): resolving a recovery item increments lives by exactly
one, with no clamp; the only cap-related guard in the code is that the
recovery branch never fires once lives ≥ 6, so a single pending
recovery item cannot push lives past 6, but several pending recovery
items can. -/
theorem recovery_increment_spec :
    (∀ (inp : Input) (g : Game) (ji : Fin 3 × Fin 4) (it0 : Item),
      g.items ji.1 ji.2 = some it0 → it0.recovery = true →
      (it0.Update (inp.hovered ji.1 ji.2) inp.pressed).Resolved = true →
      (processSlot inp g ji).playerLife = g.playerLife + 1 ∧
      (processSlot inp g ji).recoveryTime = maxRecoveryTime) ∧
    (∀ (score life : ℤ) (r : Rand), maxPlayerLife ≤ life →
      decideRecovery score life r = false) := by
  constructor
  · intro inp g ji it0 hslot hrec hres
    rw [processSlot_resolved_rec inp g ji it0 hslot hres hrec]
    exact ⟨rfl, rfl⟩
  · exact decideRecovery_at_cap

theorem recovery_increment_spec_witness :
    (gCap.items 0 0 = some itRec ∧ itRec.recovery = true ∧
      (itRec.Update (inpClick00.hovered 0 0) inpClick00.pressed).Resolved = true ∧
      (processSlot inpClick00 gCap (0, 0)).playerLife = gCap.playerLife + 1 ∧
      (processSlot inpClick00 gCap (0, 0)).recoveryTime = maxRecoveryTime) ∧
    (maxPlayerLife ≤ (6 : ℤ) ∧ decideRecovery 1000 6 rand0 = false) := by
  have h := recovery_increment_spec.1 inpClick00 gCap (0, 0) itRec rfl rfl rfl
  exact ⟨⟨rfl, rfl, rfl, h.1, h.2⟩,
    ⟨by decide, recovery_increment_spec.2 1000 6 rand0 (by decide)⟩⟩

/-! ## C2: spawn parameters -/

lemma decCool_playerLife (g : Game) : (decCool g).playerLife = g.playerLife := rfl

lemma log_ten_ne_zero : Real.log 10 ≠ 0 := ne_of_gt (Real.log_pos (by norm_num))

lemma itemLifetime_100 : itemLifetime 100 = 300 := by
  unfold itemLifetime lifetimeRaw
  have hlog : Real.log ((100 : ℤ) : ℝ) = 2 * Real.log 10 := by
    rw [show ((100 : ℤ) : ℝ) = 10 ^ (2 : ℕ) by norm_num, Real.log_pow]
    norm_num
  rw [hlog, mul_div_assoc, div_self log_ten_ne_zero, mul_one]
  rw [show (100 : ℝ) * (5 - 2) = 300 by norm_num,
    max_eq_right (by norm_num : (100 : ℝ) ≤ 300),
    min_eq_right (by norm_num : (300 : ℝ) ≤ 400),
    show (300 : ℝ) = ((300 : ℤ) : ℝ) by norm_num, goInt_intCast]

lemma goBaseScore_100 : goBaseScore 100 = 10 := by
  unfold goBaseScore
  have hsqrt : Real.sqrt ((100 : ℤ) : ℝ) = 10 := by
    rw [show ((100 : ℤ) : ℝ) = (10 : ℝ) ^ 2 by norm_num,
      Real.sqrt_sq (by norm_num : (0 : ℝ) ≤ 10)]
  rw [hsqrt, max_self, show (10 : ℝ) = ((10 : ℤ) : ℝ) by norm_num, goInt_intCast]

/-- A playing-phase state about to spawn: score 100, one life,
cooldown 0, empty board. -/
def gRecSpawn : Game :=
  { phase := Phase.game, score := 100, items := emptyGrid, coolTime := 0,
    bugID := 0, playerLife := 1, recoveryTime := 0, damageTime := 0 }

/-- RNG oracle whose recovery roll hits (and picks the second label). -/
def randRec : Rand := ⟨0, 0, 0, 0, 0, 1, 0⟩

/-- Counterexample to the claim that every spawn uses
`itemLifetime(score)` and `baseReward(score)`: at score 100 a recovery
spawn gets the fixed lifetime 400 and base reward 0, while the curve
prescribes lifetime 300 and base reward 10. -/
theorem recovery_spawn_fixed_params :
    ((spawnStep gRecSpawn randRec).items 0 0).map Item.initLifetime = some 400 ∧
    ((spawnStep gRecSpawn randRec).items 0 0).map Item.baseScore = some 0 ∧
    itemLifetime gRecSpawn.score = 300 ∧
    goBaseScore gRecSpawn.score = 10 := by
  refine ⟨by decide, by decide, itemLifetime_100, goBaseScore_100⟩

/-- C2 (amended): a normal spawn takes its lifetime and base reward
from the difficulty curve at the current score, but a recovery spawn
always uses the fixed lifetime 400 and base reward 0. -/
theorem spawn_params_spec :
    (∀ (g : Game) (r : Rand), (decCool g).coolTime = 0 →
      g.items r.slotJ r.slotI = none →
      decideRecovery g.score g.playerLife r = false →
      ((spawnStep g r).items r.slotJ r.slotI).map Item.initLifetime =
        some (itemLifetime g.score) ∧
      ((spawnStep g r).items r.slotJ r.slotI).map Item.baseScore =
        some (goBaseScore g.score)) ∧
    (∀ (g : Game) (r : Rand), (decCool g).coolTime = 0 →
      g.items r.slotJ r.slotI = none →
      decideRecovery g.score g.playerLife r = true →
      ((spawnStep g r).items r.slotJ r.slotI).map Item.initLifetime = some 400 ∧
      ((spawnStep g r).items r.slotJ r.slotI).map Item.baseScore = some 0) := by
  constructor
  · intro g r hc hs hrec
    rw [spawnStep_of_empty g r hc hs, spawnAt_items, decCool_score, decCool_playerLife,
      decCool_items, hrec]
    simp only [Bool.false_eq_true, if_false, setSlot_same, Option.map_some]
    exact ⟨rfl, rfl⟩
  · intro g r hc hs hrec
    rw [spawnStep_of_empty g r hc hs, spawnAt_items, decCool_score, decCool_playerLife,
      decCool_items, hrec]
    simp only [if_true, setSlot_same, Option.map_some]
    exact ⟨rfl, rfl⟩

theorem spawn_params_spec_witness :
    ((decCool gRecSpawn).coolTime = 0 ∧
      gRecSpawn.items randRec.slotJ randRec.slotI = none ∧
      decideRecovery gRecSpawn.score gRecSpawn.playerLife randRec = true ∧
      ((spawnStep gRecSpawn randRec).items randRec.slotJ randRec.slotI).map
        Item.initLifetime = some 400 ∧
      ((spawnStep gRecSpawn randRec).items randRec.slotJ randRec.slotI).map
        Item.baseScore = some 0) := by
  have h := spawn_params_spec.2 gRecSpawn randRec (by decide) rfl (by decide)
  exact ⟨by decide, rfl, by decide, h.1, h.2⟩

/-! ## C10: the item loop does not stop at the GameOver transition -/

/-- A quickly-resolvable bug item: base score 10, initial lifetime 4,
two ticks left. -/
def itA : Item := { NewItem ("BUG\n#" ++ toString (3 : ℤ)) 0 0 false 4 10 with lifetime := 2 }

lemma Score_eval_half (it : Item) (hl : it.lifetime = 1) (hi : it.initLifetime = 4)
    (hb : it.baseScore = 10) : it.Score = 5 := by
  unfold Item.Score
  rw [hl, hi, hb]
  have harg : ((1 : ℤ) : ℝ) / ((4 : ℤ) : ℝ) = ((1 : ℝ) / 2) ^ 2 := by
    push_cast
    norm_num
  rw [harg, Real.sqrt_sq (by norm_num : (0 : ℝ) ≤ 1 / 2),
    show ((10 : ℤ) : ℝ) * ((1 : ℝ) / 2) = ((5 : ℤ) : ℝ) by push_cast; norm_num,
    goInt_intCast]

/-- Scenario A grid: two expiring items and one resolvable item. -/
def gridA : Fin 3 → Fin 4 → Option Item :=
  setSlot (setSlot (setSlot emptyGrid 0 0 (some itExp)) 0 1 (some itExp)) 0 2 (some itA)

/-- Scenario A: one life left, two items about to expire, one clicked. -/
def gA : Game :=
  { phase := Phase.game, score := 0, items := gridA, coolTime := 2,
    bugID := 3, playerLife := 1, recoveryTime := 0, damageTime := 0 }

/-- Scenario A input: clicking slot (0,2). -/
def inpA : Input := ⟨fun j i => decide (j = 0 ∧ i = 2), true⟩

def gA1 : Game := { gA with coolTime := 1 }

def gA2 : Game :=
  { gA1 with
    items := setSlot gA1.items (0, 0).1 (0, 0).2 none
    damageTime := maxDamageTime
    playerLife := gA1.playerLife - 1
    phase := Phase.gameOver }

def gA3 : Game :=
  { gA2 with
    items := setSlot gA2.items (0, 1).1 (0, 1).2 none
    damageTime := maxDamageTime
    playerLife := gA2.playerLife - 1
    phase := Phase.gameOver }

noncomputable def gA4 : Game :=
  { gA3 with
    score := gA3.score + (itA.Update (inpA.hovered (0, 2).1 (0, 2).2) inpA.pressed).Score
    items := setSlot gA3.items (0, 2).1 (0, 2).2 none }

/-- Scenario B grid: one expiring item and one recovery item. -/
def gridB : Fin 3 → Fin 4 → Option Item :=
  setSlot (setSlot emptyGrid 0 0 (some itExp)) 0 1 (some itRec)

/-- Scenario B: one life left, an expiring item, a clicked recovery item. -/
def gB : Game :=
  { phase := Phase.game, score := 0, items := gridB, coolTime := 2,
    bugID := 1, playerLife := 1, recoveryTime := 0, damageTime := 0 }

/-- Scenario B input: clicking slot (0,1). -/
def inpB : Input := ⟨fun j i => decide (j = 0 ∧ i = 1), true⟩

def gB1 : Game := { gB with coolTime := 1 }

def gB2 : Game :=
  { gB1 with
    items := setSlot gB1.items (0, 0).1 (0, 0).2 none
    damageTime := maxDamageTime
    playerLife := gB1.playerLife - 1
    phase := Phase.gameOver }

noncomputable def gB3 : Game :=
  { gB2 with
    score := gB2.score + (itRec.Update (inpB.hovered (0, 1).1 (0, 1).2) inpB.pressed).Score
    items := setSlot gB2.items (0, 1).1 (0, 1).2 none
    playerLife := gB2.playerLife + 1
    recoveryTime := maxRecoveryTime }

/-- C10: the item loop of a tick keeps processing the remaining slots
after an expiry has already moved the phase to game-over within that
same tick: a further expiry drives the life counter below 0, a further
resolved item is still credited to the score, and a further resolved
recovery item still increments the life counter and starts the
recovery glow. -/
theorem gameOver_tick_continues :
    ((gA.updateGame rand0 inpA).phase = Phase.gameOver ∧
      (gA.updateGame rand0 inpA).playerLife = -1 ∧
      (gA.updateGame rand0 inpA).score = 5) ∧
    ((gB.updateGame rand0 inpB).phase = Phase.gameOver ∧
      (gB.updateGame rand0 inpB).playerLife = 1 ∧
      (gB.updateGame rand0 inpB).recoveryTime = maxRecoveryTime) := by
  have eA0 : spawnStep (decTimers gA) rand0 = gA1 := by
    rw [spawnStep_of_coolTime_ne _ _ (by decide)]
    rfl
  have eA1 : processSlot inpA gA1 (0, 0) = gA2 := by
    rw [processSlot_expired_dead inpA gA1 (0, 0) itExp rfl rfl rfl (by decide)]
    rfl
  have eA2 : processSlot inpA gA2 (0, 1) = gA3 := by
    rw [processSlot_expired_dead inpA gA2 (0, 1) itExp rfl rfl rfl (by decide)]
    rfl
  have eA3 : processSlot inpA gA3 (0, 2) = gA4 := by
    rw [processSlot_resolved_nonrec inpA gA3 (0, 2) itA rfl rfl rfl]
    rfl
  have eAfin : gA.updateGame rand0 inpA = gA4 := by
    unfold Game.updateGame processItems allSlots
    rw [eA0, List.foldl_cons, eA1, List.foldl_cons, eA2, List.foldl_cons, eA3]
    rw [foldl_processSlot_none inpA]
    decide
  have eAscore : gA4.score = 5 := by
    have h1 : gA4.score =
        gA3.score + (itA.Update (inpA.hovered (0, 2).1 (0, 2).2) inpA.pressed).Score := rfl
    rw [h1, Score_eval_half _ rfl rfl rfl]
    decide
  have eB0 : spawnStep (decTimers gB) rand0 = gB1 := by
    rw [spawnStep_of_coolTime_ne _ _ (by decide)]
    rfl
  have eB1 : processSlot inpB gB1 (0, 0) = gB2 := by
    rw [processSlot_expired_dead inpB gB1 (0, 0) itExp rfl rfl rfl (by decide)]
    rfl
  have eB2 : processSlot inpB gB2 (0, 1) = gB3 := by
    rw [processSlot_resolved_rec inpB gB2 (0, 1) itRec rfl rfl rfl]
    rfl
  have eBfin : gB.updateGame rand0 inpB = gB3 := by
    unfold Game.updateGame processItems allSlots
    rw [eB0, List.foldl_cons, eB1, List.foldl_cons, eB2]
    rw [foldl_processSlot_none inpB]
    decide
  rw [eAfin, eBfin]
  exact ⟨⟨by decide, by decide, eAscore⟩, ⟨by decide, by decide, by decide⟩⟩

end GameEngineDevSimulator
